import Mathlib

/- Shallow embedding of the finite-state-machine runtime:
   the pure transition engine (StateMachine.ts) and the stateful actor
   runtime (Actor.ts, current generation).
   Contexts are flat key/value records; a JS object spread with override
   is modelled by mergeCtx.  Fallible code (thrown exceptions) returns
   Except; user-supplied guards and actions are modelled as pure
   functions whose results the runtime interprets exactly as the source
   does. -/

namespace FSM

/-- A context is a record of string keys and integer values, in key
declaration order, mirroring a plain JS object. -/
abbrev Ctx := List (String × Int)

/-- Read a key of a context. -/
def ctxGet (c : Ctx) (k : String) : Option Int :=
  (c.find? (fun p => p.1 == k)).map (fun p => p.2)

/-- Update one key, preserving JS object key order: an existing key is
overwritten in place, a new key is appended. -/
def setKey (c : Ctx) (k : String) (v : Int) : Ctx :=
  if c.any (fun p => p.1 == k) then
    c.map (fun p => if p.1 == k then (k, v) else p)
  else
    c ++ [(k, v)]

/-- JS shallow merge of two objects, as in a spread of a over b:
keys of b override keys of a. -/
def mergeCtx (a b : Ctx) : Ctx :=
  b.foldl (fun acc p => setKey acc p.1 p.2) a

/-- An event: a type discriminant plus a numeric payload. -/
structure Event where
  type : String
  payload : Int
deriving DecidableEq, Repr

/-- A guard: a named pure predicate over context and event
(types.d.ts,  Guard). -/
structure Guard where
  type : String
  condition : Ctx → Event → Bool

/-- An action: a type tag and an executable body.  The body receives the
context and event and either throws (Except.error) or returns an
optional partial context update; the runtime merges the update only for
actions tagged xstate.assign and ignores it otherwise
(types,  Action.exec returning void or a record). -/
structure Action where
  type : String
  exec : Ctx → Event → Except String (Option Ctx)

/-- A transition: optional target, optional guard list, optional action
list, optional reenter flag (types,  TransitionConfig). -/
structure TransitionConfig where
  target : Option String
  guards : Option (List Guard)
  actions : Option (List Action)
  reenter : Option Bool

/-- A state node: event-keyed transitions plus entry and exit action
lists; an absent field of the source is the empty list
(types,  StateNodeConfig). -/
structure StateNode where
  «on» : List (String × TransitionConfig)
  entry : List Action
  exit : List Action

/-- The machine configuration (types,  MachineConfig). -/
structure MachineConfig where
  id : String
  initial : String
  context : Ctx
  «on» : List (String × TransitionConfig)
  states : List (String × StateNode)

/-- JS object bracket lookup over a string-keyed map. -/
def lookupStr {α : Type} (l : List (String × α)) (k : String) : Option α :=
  (l.find? (fun p => p.1 == k)).map (fun p => p.2)

/-- Actor status (types,  Snapshot.status). -/
inductive StatusVal where
  | active
  | done
  | error
  | stopped
deriving DecidableEq, Repr

instance : BEq StatusVal := ⟨fun a b => decide (a = b)⟩

/-- The internal snapshot triple (types,  Snapshot). -/
structure Snapshot where
  value : String
  context : Ctx
  status : StatusVal
deriving DecidableEq, Repr

/-- The machine object: the constructor merely stores the configuration
(StateMachine.ts line 16).  The body is empty and cannot throw, so the
embedded constructor always succeeds. -/
structure StateMachine where
  config : MachineConfig

/-- Embeds new StateMachine(config): no validation is performed and the
call never fails (StateMachine.ts line 16). -/
def mkStateMachine (cfg : MachineConfig) : Except String StateMachine :=
  Except.ok ⟨cfg⟩

/-- StateMachine.getTransitionConfig (StateMachine.ts lines 18 to 37):
read the state node (a missing node throws a TypeError, because the
source reads stateNode.on without an optional chain on stateNode), take
the state-level transition for the event type, evaluate the guards of
THAT transition (a missing transition contributes no guards), return
none when some guard blocks, and otherwise fall back to the machine
level transition when the state defines none. -/
def getTransitionConfig (cfg : MachineConfig) (state : String) (ev : Event)
    (ctx : Ctx) : Except String (Option TransitionConfig) :=
  match lookupStr cfg.states state with
  | none => Except.error "TypeError: cannot read properties of undefined"
  | some stateNode =>
    let tc := lookupStr stateNode.«on» ev.type
    let guards := tc.bind (fun t => t.guards)
    let blockingGuards :=
      (guards.map (fun gs => gs.any (fun g => ! g.condition ctx ev))).getD false
    if blockingGuards then Except.ok none
    else
      match tc with
      | some t => Except.ok (some t)
      | none => Except.ok (lookupStr cfg.«on» ev.type)

/-- StateMachine.getInitialSnapshot (StateMachine.ts lines 39 to 45):
status active, a copy of the configured context, the initial value. -/
def getInitialSnapshot (cfg : MachineConfig) : Snapshot :=
  ⟨cfg.initial, cfg.context, StatusVal.active⟩

/-- Exit actions of a state; a missing node yields the empty list
(the source uses an optional chain here). -/
def stateExit (cfg : MachineConfig) (s : String) : List Action :=
  match lookupStr cfg.states s with
  | some sn => sn.exit
  | none => []

/-- Entry actions of a state; a missing node yields the empty list. -/
def stateEntry (cfg : MachineConfig) (s : String) : List Action :=
  match lookupStr cfg.states s with
  | some sn => sn.entry
  | none => []

/-- The result of the pure engine (types,  TransitionResult). -/
structure TransitionResult where
  value : String
  actions : List Action

/-- StateMachine.transition (StateMachine.ts lines 51 to 102): resolve
the transition, compute the target (a missing target keeps the current
state), and build the action list: exit actions of the current state
when the state changes or the transition reenters, then the transition
actions, then entry actions of the target under the same condition. -/
def transition (cfg : MachineConfig) (snap : Snapshot) (ev : Event) :
    Except String (Option TransitionResult) :=
  match getTransitionConfig cfg snap.value ev snap.context with
  | Except.error e => Except.error e
  | Except.ok none => Except.ok none
  | Except.ok (some t) =>
    let targetState := t.target.getD snap.value
    let changed := (targetState != snap.value) || t.reenter.getD false
    Except.ok (some
      { value := targetState
        actions :=
          (if changed then stateExit cfg snap.value else [])
            ++ t.actions.getD []
            ++ (if changed then stateEntry cfg targetState else []) })

/-- A snapshot object as handed out by Actor.getSnapshot.  The field oid
is the object identity: two snapshot objects are the same JS object
exactly when their oid agrees, and every newly built snapshot object
receives a fresh oid. -/
structure SnapObj where
  oid : Nat
  value : String
  context : Ctx
  status : StatusVal
deriving DecidableEq, Repr

/-- A subscription callback: an identity and a behaviour flag telling
whether invoking it throws. -/
structure Subscriber where
  sid : Nat
  throws : Bool
deriving DecidableEq, Repr

/-- Invoking a subscription callback: it may throw. -/
def invokeSub (sub : Subscriber) : Except String Unit :=
  if sub.throws then Except.error "subscriber threw" else Except.ok ()

/-- The mutable fields of an Actor (Actor.ts): the internal snapshot,
the subscriber set in insertion order, the memoised public snapshot,
plus a counter minting fresh snapshot object identities. -/
structure ActorState where
  snapshot : Snapshot
  subscribers : List Subscriber
  lastSnapshot : Option SnapObj
  nextId : Nat
deriving DecidableEq, Repr

/-- Actor.getSnapshot (Actor.ts lines 56 to 69): return the cached
snapshot when present, otherwise build a new snapshot object from the
internal snapshot, cache it and return it. -/
def getSnapshotA (a : ActorState) : SnapObj × ActorState :=
  match a.lastSnapshot with
  | some s => (s, a)
  | none =>
    let s : SnapObj :=
      ⟨a.nextId, a.snapshot.value, a.snapshot.context, a.snapshot.status⟩
    (s, { a with lastSnapshot := some s, nextId := a.nextId + 1 })

/-- The forEach loop of Actor.notify: each subscriber is invoked with
the snapshot inside a try/catch, so a throwing subscriber is recorded
as delivered and the loop continues with the remaining subscribers. -/
def deliverAll : List Subscriber → SnapObj → List (Nat × SnapObj)
  | [], _ => []
  | sub :: rest, s =>
    match invokeSub sub with
    | Except.ok _ => (sub.sid, s) :: deliverAll rest s
    | Except.error _ => (sub.sid, s) :: deliverAll rest s

/-- Actor.notify (Actor.ts lines 71 to 87): return immediately when
there are no subscribers (without touching the cache), otherwise
invalidate the cache, rebuild the snapshot and deliver it to every
subscriber in order, catching subscriber exceptions. -/
def notifyA (a : ActorState) : ActorState × List (Nat × SnapObj) :=
  if a.subscribers.isEmpty then (a, [])
  else
    let a1 : ActorState := { a with lastSnapshot := none }
    let s := (getSnapshotA a1).1
    let a2 := (getSnapshotA a1).2
    (a2, deliverAll a2.subscribers s)

/-- Actor.subscribe (Actor.ts lines 89 to 106): add the callback to the
set (a Set ignores a duplicate), then immediately invoke it once with
the current snapshot inside a try/catch, and hand back the removal
closure separately (see unsubscribeA). -/
def subscribeA (a : ActorState) (sub : Subscriber) :
    ActorState × List (Nat × SnapObj) :=
  let subs :=
    if a.subscribers.any (fun s => s.sid == sub.sid) then a.subscribers
    else a.subscribers ++ [sub]
  let a1 : ActorState := { a with subscribers := subs }
  let s := (getSnapshotA a1).1
  let a2 := (getSnapshotA a1).2
  match invokeSub sub with
  | Except.ok _ => (a2, [(sub.sid, s)])
  | Except.error _ => (a2, [(sub.sid, s)])

/-- The unsubscribe closure returned by Actor.subscribe: delete exactly
this callback from the set. -/
def unsubscribeA (a : ActorState) (sid : Nat) : ActorState :=
  { a with subscribers := a.subscribers.filter (fun s => s.sid != sid) }

/-- Actor.executeActions (Actor.ts lines 183 to 205): start from a copy
of the snapshot context; for each action in order invoke its body; for
an action tagged xstate.assign shallow-merge the returned updates into
the working context, otherwise discard the result.  A thrown exception
aborts the loop.  The second component records every invocation, in
order, including the faulting one. -/
def executeActions (ctx : Ctx) (acts : List Action) (ev : Event) :
    Except String Ctx × List (String × Event) :=
  match acts with
  | [] => (Except.ok ctx, [])
  | a :: rest =>
    match a.exec ctx ev with
    | Except.error e => (Except.error e, [(a.type, ev)])
    | Except.ok ret =>
      let ctx1 :=
        if a.type == "xstate.assign" then mergeCtx ctx (ret.getD []) else ctx
      let r := executeActions ctx1 rest ev
      (r.1, (a.type, ev) :: r.2)

/-- Actor.handleError (Actor.ts lines 207 to 213): flip the status of
the internal snapshot to error and notify.  Note: the cache is NOT
invalidated here; only notify invalidates it, and notify returns early
when there are no subscribers. -/
def handleErrorA (a : ActorState) : ActorState × List (Nat × SnapObj) :=
  let a1 : ActorState :=
    { a with snapshot := { a.snapshot with status := StatusVal.error } }
  notifyA a1

/-- The outcome of one send call: the resulting actor state, the
subscriber deliveries and the trace of executed actions. -/
structure SendOut where
  state : ActorState
  deliveries : List (Nat × SnapObj)
  trace : List (String × Event)
deriving Repr

/-- Actor.send (Actor.ts lines 108 to 146): return unchanged unless the
status is active; compute the pure transition; on no transition return
unchanged; otherwise execute the actions, and on success invalidate the
cache, install the new snapshot with unchanged status, and notify.  Any
exception out of the engine or an action is routed to handleErrorA. -/
def sendA (cfg : MachineConfig) (a : ActorState) (ev : Event) : SendOut :=
  if a.snapshot.status ≠ StatusVal.active then ⟨a, [], []⟩
  else
    match transition cfg a.snapshot ev with
    | Except.error _ => ⟨(handleErrorA a).1, (handleErrorA a).2, []⟩
    | Except.ok none => ⟨a, [], []⟩
    | Except.ok (some result) =>
      match executeActions a.snapshot.context result.actions ev with
      | (Except.error _, tr) => ⟨(handleErrorA a).1, (handleErrorA a).2, tr⟩
      | (Except.ok newContext, tr) =>
        let a1 : ActorState := { a with lastSnapshot := none }
        let a2 : ActorState :=
          { a1 with snapshot := ⟨result.value, newContext, a1.snapshot.status⟩ }
        ⟨(notifyA a2).1, (notifyA a2).2, tr⟩

/-- Actor.matches (Actor.ts lines 148 to 150). -/
def matchesA (a : ActorState) (v : String) : Bool :=
  a.snapshot.value == v

/-- Actor.can (Actor.ts lines 152 to 155): a dry run of the engine; the
result is truthy exactly when a transition resolves.  The engine may
throw and can has no try/catch. -/
def canA (cfg : MachineConfig) (a : ActorState) (ev : Event) :
    Except String Bool :=
  (transition cfg a.snapshot ev).map Option.isSome

/-- Actor.start (Actor.ts lines 157 to 168): when the status is not
active, invalidate the cache, set the status to active and notify. -/
def startA (a : ActorState) : ActorState × List (Nat × SnapObj) :=
  if a.snapshot.status ≠ StatusVal.active then
    let a1 : ActorState :=
      { a with lastSnapshot := none,
               snapshot := { a.snapshot with status := StatusVal.active } }
    notifyA a1
  else (a, [])

/-- Actor.stop (Actor.ts lines 170 to 181): when the status is not
stopped, invalidate the cache, set the status to stopped and notify. -/
def stopA (a : ActorState) : ActorState × List (Nat × SnapObj) :=
  if a.snapshot.status ≠ StatusVal.stopped then
    let a1 : ActorState :=
      { a with lastSnapshot := none,
               snapshot := { a.snapshot with status := StatusVal.stopped } }
    notifyA a1
  else (a, [])

/-- The synthetic event passed to the entry actions of the initial
state during actor construction (Actor.ts line 49). -/
def initEvent : Event := ⟨"$init", 0⟩

/-- The forEach loop of the Actor constructor over the entry actions of
the initial state: each body is invoked once with the configured
context and the init event; its return value is discarded, and there is
no try/catch, so a thrown exception propagates out of the constructor.
The result is the invocation trace. -/
def runEntryExecs (ctx : Ctx) (acts : List Action) (ev : Event) :
    Except String (List (String × Event)) :=
  match acts with
  | [] => Except.ok []
  | a :: rest =>
    match a.exec ctx ev with
    | Except.error e => Except.error e
    | Except.ok _ => (runEntryExecs ctx rest ev).map (fun tr => (a.type, ev) :: tr)

/-- The Actor constructor (Actor.ts lines 30 to 54): take the initial
snapshot (with a copy of the configured context), an empty subscriber
set and an empty cache, then read the state node of the initial value
(a missing node makes the read of its entry field throw a TypeError)
and run its entry actions once each with the init event, discarding
their results. -/
def buildActor (cfg : MachineConfig) :
    Except String (ActorState × List (String × Event)) :=
  let snap := getInitialSnapshot cfg
  match lookupStr cfg.states cfg.initial with
  | none => Except.error "TypeError: cannot read entry of undefined"
  | some sn =>
    (runEntryExecs cfg.context sn.entry initEvent).map
      (fun tr => (⟨snap, [], none, 0⟩, tr))

/-- A public actor operation, for statements quantifying over call
sequences. -/
inductive ActorOp where
  | sendOp (ev : Event)
  | startOp
  | stopOp
  | subscribeOp (sub : Subscriber)
  | unsubOp (sid : Nat)
  | snapOp
  | matchesOp (v : String)
  | canOp (ev : Event)

/-- Effect of one public operation on the actor state.  The pure
observers matches and can leave the state untouched; can may throw, in
which case the exception propagates to the caller and the actor state
is likewise untouched. -/
def applyActorOp (cfg : MachineConfig) (a : ActorState) :
    ActorOp → ActorState
  | ActorOp.sendOp ev => (sendA cfg a ev).state
  | ActorOp.startOp => (startA a).1
  | ActorOp.stopOp => (stopA a).1
  | ActorOp.subscribeOp sub => (subscribeA a sub).1
  | ActorOp.unsubOp sid => unsubscribeA a sid
  | ActorOp.snapOp => (getSnapshotA a).2
  | ActorOp.matchesOp _ => a
  | ActorOp.canOp _ => a

/-- The whole running system: the shared machine object plus one actor.
Every operation of the runtime is embedded as a function on this pair
so that writes to the machine definition, had the source any, would be
visible as changes of the machine component. -/
structure Sys where
  machine : StateMachine
  actor : ActorState

/-- One public operation on the system. -/
def applySysOp (s : Sys) (op : ActorOp) : Sys :=
  ⟨s.machine, applyActorOp s.machine.config s.actor op⟩

/-- A sequence of public operations on the system. -/
def applySysOps (s : Sys) (ops : List ActorOp) : Sys :=
  ops.foldl applySysOp s

/- Concrete machines used to evaluate the embedding on the inputs the
theorems below name. -/

/-- A guard that always passes. -/
def gTrue : Guard := ⟨"always", fun _ _ => true⟩

/-- A guard that always blocks. -/
def gFalse : Guard := ⟨"never", fun _ _ => false⟩

/-- An effect action with tag t1. -/
def actT1 : Action := ⟨"t1", fun _ _ => Except.ok none⟩

/-- An effect action with tag exitA. -/
def actExitA : Action := ⟨"exitA", fun _ _ => Except.ok none⟩

/-- An effect action with tag enterA. -/
def actEnterA : Action := ⟨"enterA", fun _ _ => Except.ok none⟩

/-- An effect action with tag enterB. -/
def actEnterB : Action := ⟨"enterB", fun _ _ => Except.ok none⟩

/-- An effect action with tag glog. -/
def actGlog : Action := ⟨"glog", fun _ _ => Except.ok none⟩

/-- An assignment action incrementing the count key. -/
def assignInc : Action :=
  ⟨"xstate.assign",
   fun c _ => Except.ok (some [("count", (ctxGet c "count").getD 0 + 1)])⟩

/-- An action whose body throws. -/
def actBoom : Action := ⟨"boom", fun _ _ => Except.error "boom"⟩

/-- An assignment action returning an update, used as an initial entry
action. -/
def assignEntry99 : Action :=
  ⟨"xstate.assign", fun _ _ => Except.ok (some [("count", 99)])⟩

/-- A guarded transition from A to B with one transition action. -/
def tGo1 : TransitionConfig := ⟨some "B", some [gTrue], some [actT1], none⟩

/-- Machine with two states A and B, entry and exit actions on both
sides and a guarded GO transition. -/
def cfg1 : MachineConfig :=
  ⟨"m1", "A", [("count", 0)],
   [],
   [("A", ⟨[("GO", tGo1)], [actEnterA], [actExitA]⟩),
    ("B", ⟨[], [actEnterB], []⟩)]⟩

/-- The initial snapshot of cfg1. -/
def snap1 : Snapshot := ⟨"A", [("count", 0)], StatusVal.active⟩

/-- The GO event. -/
def evGo : Event := ⟨"GO", 0⟩

/-- A machine-level (global) transition whose only guard blocks. -/
def tGo2 : TransitionConfig := ⟨some "won", some [gFalse], some [actGlog], none⟩

/-- Machine whose idle state defines no handler for GO, with a global
GO transition carrying a failing guard. -/
def cfg2 : MachineConfig :=
  ⟨"m2", "idle", [("count", 0)],
   [("GO", tGo2)],
   [("idle", ⟨[], [], []⟩), ("won", ⟨[], [], []⟩)]⟩

/-- The actor freshly built from cfg2. -/
def actor2 : ActorState :=
  ⟨⟨"idle", [("count", 0)], StatusVal.active⟩, [], none, 0⟩

/-- Machine with one state whose INC transition first assigns and then
throws. -/
def cfg3 : MachineConfig :=
  ⟨"m3", "s", [("count", 0)],
   [],
   [("s", ⟨[("INC", ⟨none, none, some [assignInc, actBoom], none⟩)], [], []⟩)]⟩

/-- The actor freshly built from cfg3. -/
def actor3 : ActorState :=
  ⟨⟨"s", [("count", 0)], StatusVal.active⟩, [], none, 0⟩

/-- The INC event. -/
def evInc : Event := ⟨"INC", 0⟩

/-- The actor of cfg3 after the faulting send: its status is error. -/
def actor4err : ActorState := (sendA cfg3 actor3 evInc).state

/-- The actor of cfg3 after one getSnapshot call has filled the cache. -/
def actor8a : ActorState := (getSnapshotA actor3).2

/-- The snapshot object cached by that call. -/
def snap8 : SnapObj := (getSnapshotA actor3).1

/-- The cached actor after a faulting send with zero subscribers. -/
def actor8b : ActorState := (sendA cfg3 actor8a evInc).state

/-- The actor of cfg3 carrying two subscribers, the first of which
throws when invoked. -/
def actorSubs : ActorState :=
  ⟨⟨"s", [("count", 0)], StatusVal.active⟩, [⟨1, true⟩, ⟨2, false⟩], none, 0⟩

/-- A configuration whose initial value names no state. -/
def cfgBad : MachineConfig :=
  ⟨"bad", "ghost", [("count", 0)], [], [("idle", ⟨[], [], []⟩)]⟩

/-- Machine whose initial state has an assignment entry action
returning an update. -/
def cfgInit : MachineConfig :=
  ⟨"mi", "s", [("count", 0)], [], [("s", ⟨[], [assignEntry99], []⟩)]⟩

/- Helper lemmas about the actor runtime. -/

theorem getSnapshotA_snd_snapshot (a : ActorState) :
    ((getSnapshotA a).2).snapshot = a.snapshot := by
  cases h : a.lastSnapshot <;> simp [getSnapshotA, h]

theorem getSnapshotA_snd_subscribers (a : ActorState) :
    ((getSnapshotA a).2).subscribers = a.subscribers := by
  cases h : a.lastSnapshot <;> simp [getSnapshotA, h]

theorem notifyA_fst_snapshot (a : ActorState) :
    ((notifyA a).1).snapshot = a.snapshot := by
  by_cases h : a.subscribers.isEmpty <;>
    simp [notifyA, h, getSnapshotA_snd_snapshot]

theorem deliverAll_map_fst (subs : List Subscriber) (s : SnapObj) :
    (deliverAll subs s).map Prod.fst = subs.map Subscriber.sid := by
  induction subs with
  | nil => rfl
  | cons x xs ih =>
    unfold deliverAll
    cases h : invokeSub x <;> simp [ih]

theorem deliverAll_mem_snd (subs : List Subscriber) (s : SnapObj) :
    ∀ d ∈ deliverAll subs s, d.2 = s := by
  induction subs with
  | nil => intro d hd; simp [deliverAll] at hd
  | cons x xs ih =>
    intro d hd
    unfold deliverAll at hd
    cases h : invokeSub x <;> rw [h] at hd <;>
      rcases List.mem_cons.mp hd with h2 | h2
    · rw [h2]
    · exact ih d h2
    · rw [h2]
    · exact ih d h2

theorem notifyA_deliveries_fst (a : ActorState) :
    ((notifyA a).2).map Prod.fst =
      (if a.subscribers.isEmpty then [] else a.subscribers.map Subscriber.sid) := by
  by_cases h : a.subscribers.isEmpty <;>
    simp [notifyA, h, deliverAll_map_fst, getSnapshotA_snd_subscribers]

theorem notifyA_deliveries_status (a : ActorState) :
    ∀ d ∈ (notifyA a).2, d.2.status = a.snapshot.status := by
  intro d hd
  by_cases h : a.subscribers.isEmpty
  · simp [notifyA, h] at hd
  · simp only [notifyA, h, if_neg, ite_false] at hd
    have h2 := deliverAll_mem_snd _ _ d hd
    rw [h2]
    simp [getSnapshotA]

theorem handleErrorA_fst_snapshot (a : ActorState) :
    ((handleErrorA a).1).snapshot = { a.snapshot with status := StatusVal.error } := by
  simp [handleErrorA, notifyA_fst_snapshot]

theorem handleErrorA_deliveries_fst (a : ActorState) :
    ((handleErrorA a).2).map Prod.fst =
      (if a.subscribers.isEmpty then [] else a.subscribers.map Subscriber.sid) := by
  simp [handleErrorA, notifyA_deliveries_fst]

theorem handleErrorA_deliveries_status (a : ActorState) :
    ∀ d ∈ (handleErrorA a).2, d.2.status = StatusVal.error := by
  intro d hd
  exact notifyA_deliveries_status _ d hd

theorem runEntryExecs_ok_trace (ctx : Ctx) (ev : Event) :
    ∀ (acts : List Action) (tr : List (String × Event)),
      runEntryExecs ctx acts ev = Except.ok tr →
      tr = acts.map (fun a => (a.type, ev)) := by
  intro acts
  induction acts with
  | nil => intro tr h; simp [runEntryExecs] at h; simp [h.symm]
  | cons a rest ih =>
    intro tr h
    unfold runEntryExecs at h
    cases hx : a.exec ctx ev <;> rw [hx] at h
    · simp at h
    · cases hr : runEntryExecs ctx rest ev <;> rw [hr] at h
      · simp [Except.map] at h
      · simp [Except.map] at h
        rw [← h]
        simp [ih _ hr]

/-- Claim C1: for every machine, snapshot and event whose lookup
resolves a transition whose guards all pass, the engine returns exactly
the exit actions of the current state (iff the target differs from the
current value or the transition reenters), then the transition actions,
then the entry actions of the target (under the same condition); in
particular a same-state transition with reenter unset yields only the
transition actions, and with reenter set yields exit then entry around
them. -/
theorem claim1_action_order (cfg : MachineConfig) (snap : Snapshot)
    (ev : Event) (t : TransitionConfig)
    (hres : getTransitionConfig cfg snap.value ev snap.context
      = Except.ok (some t))
    (_hg : (t.guards.getD []).all (fun g => g.condition snap.context ev)
      = true) :
    transition cfg snap ev = Except.ok (some
      { value := t.target.getD snap.value
        actions :=
          (if (t.target.getD snap.value != snap.value) || t.reenter.getD false
           then stateExit cfg snap.value else [])
          ++ t.actions.getD []
          ++ (if (t.target.getD snap.value != snap.value)
                 || t.reenter.getD false
              then stateEntry cfg (t.target.getD snap.value) else []) })
    ∧ (t.target.getD snap.value = snap.value → t.reenter.getD false = false →
        transition cfg snap ev = Except.ok (some
          { value := snap.value, actions := t.actions.getD [] }))
    ∧ (t.target.getD snap.value = snap.value → t.reenter.getD false = true →
        transition cfg snap ev = Except.ok (some
          { value := snap.value
            actions := stateExit cfg snap.value ++ t.actions.getD []
              ++ stateEntry cfg snap.value })) := by
  refine ⟨?_, ?_, ?_⟩
  · simp [transition, hres]
  · intro h1 h2
    simp [transition, hres, h1, h2]
  · intro h1 h2
    simp [transition, hres, h1, h2]

/-- Witness for C1 at cfg1: the GO transition from A to B with a
passing guard produces exactly exit of A, then the transition action,
then entry of B. -/
theorem claim1_action_order_w :
    transition cfg1 snap1 evGo
      = Except.ok (some ⟨"B", [actExitA, actT1, actEnterB]⟩) := by
  rw [(claim1_action_order cfg1 snap1 evGo tGo1 rfl rfl).1]
  rfl

/-- Claim C2 is violated by the code: in getTransitionConfig the guards
are read off the state-level transition BEFORE the fall back to the
machine-level map, so the guards of a resolved global transition are
never evaluated.  This theorem evaluates the code at the failing input:
the idle state of cfg2 has no GO handler, the global GO transition has
a guard that returns false, and yet the engine resolves the transition,
returns its action list, and a send moves the actor to the target
state. -/
theorem claim2_global_guard_skipped :
    buildActor cfg2 = Except.ok (actor2, [])
    ∧ getTransitionConfig cfg2 "idle" evGo [("count", 0)]
        = Except.ok (some tGo2)
    ∧ (tGo2.guards.getD []).any
        (fun g => ! g.condition [("count", 0)] evGo) = true
    ∧ transition cfg2 actor2.snapshot evGo
        = Except.ok (some ⟨"won", [actGlog]⟩)
    ∧ (sendA cfg2 actor2 evGo).state.snapshot.value = "won"
    ∧ (sendA cfg2 actor2 evGo).trace = [("glog", evGo)] :=
  ⟨rfl, rfl, rfl, rfl, rfl, rfl⟩

/-- Claim C5 is false as stated: construction of the machine performs
no validation at all and succeeds for a configuration whose initial
value names no state; there is no InvalidInitialState error anywhere.
The failure surfaces when an actor is constructed, as a TypeError from
reading the entry field of an undefined state node. -/
theorem claim5_no_ctor_validation_cex :
    lookupStr cfgBad.states cfgBad.initial = none
    ∧ mkStateMachine cfgBad = Except.ok ⟨cfgBad⟩
    ∧ buildActor cfgBad
        = Except.error "TypeError: cannot read entry of undefined" :=
  ⟨rfl, rfl, rfl⟩

/-- Claim C5 amended: for every configuration whose initial value is
not a key of the state map, machine construction nevertheless succeeds
without any validation, and actor construction throws a TypeError
(reading the entry field of the missing state node), not a designed
InvalidInitialState configuration error. -/
theorem claim5_unknown_initial_behavior (cfg : MachineConfig)
    (h : lookupStr cfg.states cfg.initial = none) :
    mkStateMachine cfg = Except.ok ⟨cfg⟩
    ∧ buildActor cfg
        = Except.error "TypeError: cannot read entry of undefined" := by
  refine ⟨rfl, ?_⟩
  simp [buildActor, h]

/-- Witness for the amended C5 at cfgBad. -/
theorem claim5_unknown_initial_behavior_w :
    mkStateMachine cfgBad = Except.ok ⟨cfgBad⟩
    ∧ buildActor cfgBad
        = Except.error "TypeError: cannot read entry of undefined" :=
  claim5_unknown_initial_behavior cfgBad rfl

/-- Claim C6: for every actor whose status is stopped or error and
every event, send returns the state unchanged, delivers nothing and
executes no action. -/
theorem claim6_send_gated (cfg : MachineConfig) (a : ActorState) (ev : Event)
    (h : a.snapshot.status = StatusVal.stopped
      ∨ a.snapshot.status = StatusVal.error) :
    sendA cfg a ev = ⟨a, [], []⟩ := by
  have hne : a.snapshot.status ≠ StatusVal.active := by
    rcases h with h | h <;> simp [h]
  simp [sendA, hne]

/-- Witness for C6: a stopped actor of cfg3 ignores INC entirely. -/
theorem claim6_send_gated_w :
    sendA cfg3 ((stopA actor3).1) evInc = ⟨(stopA actor3).1, [], []⟩ :=
  claim6_send_gated cfg3 ((stopA actor3).1) evInc (Or.inl rfl)

/-- Claim C10: for every configuration whose initial state node exists
and whose entry actions all return without throwing, actor construction
runs each entry action exactly once with the synthetic init event, and
the resulting actor context equals the copied initial context of the
definition regardless of what any entry action (assignments included)
returned. -/
theorem claim10_init_entry (cfg : MachineConfig) (sn : StateNode)
    (tr : List (String × Event))
    (hs : lookupStr cfg.states cfg.initial = some sn)
    (hr : runEntryExecs cfg.context sn.entry initEvent = Except.ok tr) :
    buildActor cfg = Except.ok
      (⟨⟨cfg.initial, cfg.context, StatusVal.active⟩, [], none, 0⟩, tr)
    ∧ tr = sn.entry.map (fun a => (a.type, initEvent)) := by
  constructor
  · simp [buildActor, hs, hr, getInitialSnapshot, Except.map]
  · exact runEntryExecs_ok_trace cfg.context initEvent sn.entry tr hr

/-- Witness for C10 at cfgInit: the assignment entry action returning
count 99 runs once with the init event, yet the constructed context
still equals the configured initial context. -/
theorem claim10_init_entry_w :
    buildActor cfgInit = Except.ok
      (⟨⟨"s", [("count", 0)], StatusVal.active⟩, [], none, 0⟩,
       [("xstate.assign", initEvent)])
    ∧ [("xstate.assign", initEvent)]
        = [assignEntry99].map (fun a => (a.type, initEvent)) :=
  claim10_init_entry cfgInit ⟨[], [assignEntry99], []⟩
    [("xstate.assign", initEvent)] rfl rfl

/-- Claim C3 is false in one conjunct: on a faulting send the context
updates of actions that ran before the fault do NOT remain in the actor
context.  At this input the assignment action runs first (the trace
records it, and in isolation it produces count 1), then the second
action throws; afterwards the actor context still equals the pre-send
context, because the working copy built by executeActions is discarded
when the exception propagates. -/
theorem claim3_partial_ctx_discarded_cex :
    buildActor cfg3 = Except.ok (actor3, [])
    ∧ (sendA cfg3 actor3 evInc).trace
        = [("xstate.assign", evInc), ("boom", evInc)]
    ∧ (executeActions [("count", 0)] [assignInc] evInc).1
        = Except.ok [("count", 1)]
    ∧ (sendA cfg3 actor3 evInc).state.snapshot.status = StatusVal.error
    ∧ (sendA cfg3 actor3 evInc).state.snapshot.context = [("count", 0)] :=
  ⟨rfl, rfl, rfl, rfl, rfl⟩

/-- Claim C3 amended: when an action in the computed list throws, the
status becomes error, the actions executed up to and including the
faulting one are exactly the recorded trace (the event is consumed and
never retried), every subscriber is notified once with an error-status
snapshot, and the actor keeps its pre-send value and context: the
partial updates are discarded with the working copy, not kept. -/
theorem claim3_fault_semantics (cfg : MachineConfig) (a : ActorState)
    (ev : Event) (res : TransitionResult) (e : String)
    (tr : List (String × Event))
    (hs : a.snapshot.status = StatusVal.active)
    (ht : transition cfg a.snapshot ev = Except.ok (some res))
    (hx : executeActions a.snapshot.context res.actions ev
      = (Except.error e, tr)) :
    (sendA cfg a ev).state.snapshot.status = StatusVal.error
    ∧ (sendA cfg a ev).state.snapshot.context = a.snapshot.context
    ∧ (sendA cfg a ev).state.snapshot.value = a.snapshot.value
    ∧ (sendA cfg a ev).trace = tr
    ∧ ((sendA cfg a ev).deliveries).map Prod.fst
        = (if a.subscribers.isEmpty then []
           else a.subscribers.map Subscriber.sid)
    ∧ ∀ d ∈ (sendA cfg a ev).deliveries, d.2.status = StatusVal.error := by
  have hsend : sendA cfg a ev = ⟨(handleErrorA a).1, (handleErrorA a).2, tr⟩ := by
    simp [sendA, hs, ht, hx]
  rw [hsend]
  refine ⟨?_, ?_, ?_, rfl, handleErrorA_deliveries_fst a,
    handleErrorA_deliveries_status a⟩
  · rw [handleErrorA_fst_snapshot]
  · rw [handleErrorA_fst_snapshot]
  · rw [handleErrorA_fst_snapshot]

/-- Witness for the amended C3 at cfg3. -/
theorem claim3_fault_semantics_w :
    (sendA cfg3 actor3 evInc).state.snapshot.status = StatusVal.error
    ∧ (sendA cfg3 actor3 evInc).state.snapshot.context
        = actor3.snapshot.context
    ∧ (sendA cfg3 actor3 evInc).state.snapshot.value = actor3.snapshot.value
    ∧ (sendA cfg3 actor3 evInc).trace
        = [("xstate.assign", evInc), ("boom", evInc)]
    ∧ ((sendA cfg3 actor3 evInc).deliveries).map Prod.fst
        = (if actor3.subscribers.isEmpty then []
           else actor3.subscribers.map Subscriber.sid)
    ∧ ∀ d ∈ (sendA cfg3 actor3 evInc).deliveries,
        d.2.status = StatusVal.error :=
  claim3_fault_semantics cfg3 actor3 evInc ⟨"s", [assignInc, actBoom]⟩
    "boom" [("xstate.assign", evInc), ("boom", evInc)] rfl rfl rfl

/-- Claim C4 is false: start gates only on the status not being active,
so an actor whose status is error (reached here through a faulting
send) is returned to active by start; stop likewise moves it to
stopped. -/
theorem claim4_error_to_active_cex :
    buildActor cfg3 = Except.ok (actor3, [])
    ∧ actor4err = (sendA cfg3 actor3 evInc).state
    ∧ actor4err.snapshot.status = StatusVal.error
    ∧ ((startA actor4err).1).snapshot.status = StatusVal.active
    ∧ ((stopA actor4err).1).snapshot.status = StatusVal.stopped :=
  ⟨rfl, rfl, rfl, rfl, rfl⟩

/-- Claim C4 amended: start always leaves the status active and stop
always leaves it stopped, from ANY prior status including error; send
either preserves the status or moves an active actor to error; the
remaining public operations never change the status.  So the status
transitions taken are active to stopped, stopped to active, active to
error, error to active (via start) and error to stopped (via stop). -/
theorem claim4_status_transitions (cfg : MachineConfig) (a : ActorState)
    (ev : Event) (sub : Subscriber) (sid : Nat) :
    ((startA a).1).snapshot.status = StatusVal.active
    ∧ ((stopA a).1).snapshot.status = StatusVal.stopped
    ∧ ((sendA cfg a ev).state.snapshot.status = a.snapshot.status
       ∨ (a.snapshot.status = StatusVal.active
          ∧ (sendA cfg a ev).state.snapshot.status = StatusVal.error))
    ∧ ((subscribeA a sub).1).snapshot = a.snapshot
    ∧ (unsubscribeA a sid).snapshot = a.snapshot
    ∧ ((getSnapshotA a).2).snapshot = a.snapshot := by
  refine ⟨?_, ?_, ?_, ?_, rfl, getSnapshotA_snd_snapshot a⟩
  · by_cases h : a.snapshot.status = StatusVal.active
    · simp [startA, h]
    · simp [startA, h, notifyA_fst_snapshot]
  · by_cases h : a.snapshot.status = StatusVal.stopped
    · simp [stopA, h]
    · simp [stopA, h, notifyA_fst_snapshot]
  · by_cases h : a.snapshot.status = StatusVal.active
    · cases ht : transition cfg a.snapshot ev with
      | error e =>
        exact Or.inr ⟨h, by simp [sendA, h, ht, handleErrorA_fst_snapshot]⟩
      | ok o =>
        cases o with
        | none => exact Or.inl (by simp [sendA, h, ht])
        | some res =>
          cases hx : executeActions a.snapshot.context res.actions ev with
          | mk r tr =>
            cases r with
            | error e =>
              exact Or.inr ⟨h,
                by simp [sendA, h, ht, hx, handleErrorA_fst_snapshot]⟩
            | ok c =>
              exact Or.inl (by simp [sendA, h, ht, hx, notifyA_fst_snapshot])
    · exact Or.inl (by simp [sendA, h])
  · cases h : invokeSub sub <;>
      simp [subscribeA, h, getSnapshotA_snd_snapshot]

/-- The machine component of the system is preserved by every sequence
of public operations: no operation writes into it. -/
theorem applySysOps_machine_eq (ops : List ActorOp) :
    ∀ s : Sys, (applySysOps s ops).machine = s.machine := by
  induction ops with
  | nil => intro s; rfl
  | cons op rest ih =>
    intro s
    have h2 := ih (applySysOp s op)
    simpa [applySysOps, applySysOp] using h2

/-- Claim C7: the machine definition, its initial context included, is
never changed by any sequence of public actor operations, and a freshly
constructed actor starts from a copy of the definition context.  The
runtime only ever builds new contexts (merges allocate, assignment
returns are discarded at construction), so the definition component of
the system is invariant. -/
theorem claim7_definition_immutable (cfg : MachineConfig) (st : ActorState)
    (tr : List (String × Event)) (ops : List ActorOp)
    (h : buildActor cfg = Except.ok (st, tr)) :
    (applySysOps ⟨⟨cfg⟩, st⟩ ops).machine = ⟨cfg⟩
    ∧ (applySysOps ⟨⟨cfg⟩, st⟩ ops).machine.config.context = cfg.context
    ∧ st.snapshot.context = cfg.context := by
  have hm := applySysOps_machine_eq ops ⟨⟨cfg⟩, st⟩
  refine ⟨hm, by rw [hm], ?_⟩
  cases hl : lookupStr cfg.states cfg.initial with
  | none => simp [buildActor, hl] at h
  | some sn =>
    cases hr : runEntryExecs cfg.context sn.entry initEvent with
    | error e => simp [buildActor, hl, hr, Except.map] at h
    | ok tr2 =>
      simp [buildActor, hl, hr, Except.map] at h
      rw [← h.1]
      rfl

/-- Witness for C7 at cfg3 with a send and a start. -/
theorem claim7_definition_immutable_w :
    (applySysOps ⟨⟨cfg3⟩, actor3⟩
      [ActorOp.sendOp evInc, ActorOp.startOp]).machine = ⟨cfg3⟩
    ∧ (applySysOps ⟨⟨cfg3⟩, actor3⟩
        [ActorOp.sendOp evInc, ActorOp.startOp]).machine.config.context
      = cfg3.context
    ∧ actor3.snapshot.context = cfg3.context :=
  claim7_definition_immutable cfg3 actor3 []
    [ActorOp.sendOp evInc, ActorOp.startOp] rfl

/-- Claim C8 is violated by the code on the fault path: handleError
flips the status to error but does not clear the memoised snapshot, and
notify returns before clearing it when there are no subscribers.  At
this input the cache is filled while the actor is active, a send then
faults, and the next getSnapshot returns the identical stale snapshot
object still showing status active although the actor status is
error. -/
theorem claim8_stale_cache_after_fault :
    buildActor cfg3 = Except.ok (actor3, [])
    ∧ snap8 = ⟨0, "s", [("count", 0)], StatusVal.active⟩
    ∧ actor8b.snapshot.status = StatusVal.error
    ∧ (getSnapshotA actor8b).1 = snap8
    ∧ (getSnapshotA actor8b).1.status = StatusVal.active :=
  ⟨rfl, rfl, rfl, rfl, rfl⟩

/-- Claim C9: subscribe invokes the callback exactly once, immediately,
with the snapshot the actor currently hands out; unsubscribe removes
exactly that callback and afterwards a notification pass delivers
nothing to it; and a notification pass delivers to every subscriber in
order whether or not any of them throws (the statement does not depend
on the throws flags). -/
theorem claim9_subscription (a : ActorState) (sub : Subscriber) (sid : Nat) :
    ((subscribeA a sub).2).map Prod.fst = [sub.sid]
    ∧ (a.lastSnapshot = none →
        (subscribeA a sub).2 = [(sub.sid,
          ⟨a.nextId, a.snapshot.value, a.snapshot.context,
           a.snapshot.status⟩)])
    ∧ (unsubscribeA a sid).subscribers
        = a.subscribers.filter (fun s => s.sid != sid)
    ∧ ((notifyA a).2).map Prod.fst
        = (if a.subscribers.isEmpty then []
           else a.subscribers.map Subscriber.sid)
    ∧ (∀ d ∈ (notifyA (unsubscribeA a sid)).2, d.1 ≠ sid) := by
  refine ⟨?_, ?_, rfl, notifyA_deliveries_fst a, ?_⟩
  · cases h : invokeSub sub <;> simp [subscribeA, h]
  · intro hc
    cases h : invokeSub sub <;> simp [subscribeA, h, getSnapshotA, hc]
  · intro d hd
    have h1 : d.1 ∈ ((notifyA (unsubscribeA a sid)).2).map Prod.fst :=
      List.mem_map_of_mem Prod.fst hd
    rw [notifyA_deliveries_fst] at h1
    by_cases he : (unsubscribeA a sid).subscribers.isEmpty
    · rw [if_pos he] at h1
      simp at h1
    · rw [if_neg he] at h1
      rcases List.mem_map.mp h1 with ⟨s2, hs2, hval⟩
      simp [unsubscribeA] at hs2
      rw [← hval]
      exact hs2.2

/-- Witness for C9 on an actor with a throwing first subscriber: the
fresh callback is delivered to exactly once with the current snapshot,
unsubscription removes only the named callback, the notification pass
reaches both subscribers although the first throws, and the remaining
delivery does not target the removed callback. -/
theorem claim9_subscription_w :
    ((subscribeA actorSubs ⟨7, false⟩).2).map Prod.fst = [7]
    ∧ (subscribeA actorSubs ⟨7, false⟩).2
        = [(7, ⟨0, "s", [("count", 0)], StatusVal.active⟩)]
    ∧ (unsubscribeA actorSubs 1).subscribers = [⟨2, false⟩]
    ∧ ((notifyA actorSubs).2).map Prod.fst = [1, 2]
    ∧ (2 : Nat) ≠ 1 := by
  have h := claim9_subscription actorSubs ⟨7, false⟩ 1
  exact ⟨h.1, h.2.1 rfl, h.2.2.1, h.2.2.2.1,
    h.2.2.2.2 (2, ⟨0, "s", [("count", 0)], StatusVal.active⟩) (by decide)⟩

end FSM
